import Mathlib

/-!
Verification of the DecoPlan mock-RAG furniture-retrieval core.

This file is a shallow embedding of the furniture-retrieval and
room-coverage module of the repository:

* `src/types/furniture.ts` — the data model (`Furniture`, categories,
  `RAGRetrievalResult`);
* the chat types file — the `RoomStyle` string-literal union;
* `src/lib/furnitureData.ts` — the two static catalogs
  (`MOCK_FURNITURE_DATABASE`, `JAPANESE_FURNITURE_DATABASE`);
* `src/lib/mockRAG.ts` — `detectRoomStyle`, `getFurnitureByStyle`,
  `retrieveFurniture`, `retrieveFurnitureByCategory`,
  `calculateRoomCoverage`.

Modelling conventions:

* JavaScript numbers are embedded as exact rationals (`ℚ`); every numeric
  literal appearing in the source is a short decimal that `ℚ` represents
  exactly.
* `Math.round` (round half toward positive infinity) is `jsRound`.
* The division `totalFootprint / roomArea` in `calculateRoomCoverage` is
  unguarded in the source and produces no finite number when
  `roomArea = 0`; the embedding makes this explicit by giving the
  percentage the type `Option ℚ`, with `none` for the division-by-zero
  case and `some` for the defined case.
* `Array.prototype.sort` with the comparator
  `(a, b) => b.confidenceScore - a.confidenceScore` is required by
  ECMA-262 to be a stable sort; it is embedded as the stable insertion
  sort `List.insertionSort` over the relation `confGE`
  ("a's confidence is at least b's", i.e. the comparator returns ≤ 0).
* The simulated network delay (`simulateDelay`) and the wall-clock
  `timestamp` field of the result envelope are I/O effects with no
  bearing on the returned data; the embedding of the result envelope
  keeps the `furniture` and `query` fields.
-/

/-- 3D coordinate (`Position` in `types/furniture.ts`): x, y, z in meters. -/
structure Position where
  x : ℚ
  y : ℚ
  z : ℚ
deriving DecidableEq

/-- Furniture dimensions (`Dimensions` in `types/furniture.ts`): width, height, depth in meters. -/
structure Dimensions where
  width : ℚ
  height : ℚ
  depth : ℚ
deriving DecidableEq

/-- RGB color triple (`Color` in `types/furniture.ts`). -/
structure Color where
  r : ℕ
  g : ℕ
  b : ℕ
deriving DecidableEq

/-- The `FurnitureCategory` string-literal union of `types/furniture.ts`. -/
inductive FurnitureCategory where
  | sofa
  | table
  | chair
  | bed
  | cabinet
  | shelf
  | lamp
  | other
deriving DecidableEq

/-- The string carried by each `FurnitureCategory` literal in the source
(the TypeScript union is stringly typed, so category values ARE these
strings; comparisons against caller-supplied strings are case-sensitive). -/
def FurnitureCategory.categoryName : FurnitureCategory → String
  | .sofa => "sofa"
  | .table => "table"
  | .chair => "chair"
  | .bed => "bed"
  | .cabinet => "cabinet"
  | .shelf => "shelf"
  | .lamp => "lamp"
  | .other => "other"

/-- A catalog record: `Omit<Furniture, 'visible'>` in the source — one
furniture item as stored in the static databases, before the `visible`
flag is attached by retrieval. -/
structure CatalogItem where
  id : String
  name : String
  category : FurnitureCategory
  position : Position
  dimensions : Dimensions
  color : Color
  confidenceScore : ℚ
  description : String
deriving DecidableEq

/-- The `Furniture` interface of `types/furniture.ts`: a catalog record
plus the `visible` presentation flag. -/
structure Furniture extends CatalogItem where
  visible : Bool
deriving DecidableEq

/-- The spread `{ ...item, visible: true }` used by both retrieval
functions in `mockRAG.ts`. -/
def withVisible (item : CatalogItem) : Furniture :=
  { toCatalogItem := item, visible := true }

/-- The `RoomStyle` string-literal union of the chat types file. -/
inductive RoomStyle where
  | modern
  | japanese
  | minimalist
  | scandinavian
  | industrial
  | traditional
deriving DecidableEq

/-- The `RAGRetrievalResult` envelope of `types/furniture.ts` (the
wall-clock `timestamp` field is an I/O effect and is not part of the pure
embedding). -/
structure RAGRetrievalResult where
  furniture : List Furniture
  query : String
deriving DecidableEq

/-- The record returned by `calculateRoomCoverage` in `mockRAG.ts`.
`coveragePercentage` is `Option ℚ` because the source divides by
`roomWidth * roomDepth` without a guard: `none` is the division-by-zero
case, in which the source produces no finite number. -/
structure CoverageStats where
  totalFootprint : ℚ
  coveragePercentage : Option ℚ
  itemCount : ℕ
deriving DecidableEq

/-- `MOCK_FURNITURE_DATABASE` from `furnitureData.ts`: the default /
general catalog (10 records). -/
def MOCK_FURNITURE_DATABASE : List CatalogItem := [
  { id := "sofa-001", name := "Modern L-Shaped Sofa", category := .sofa,
    position := { x := -2, y := 0.4, z := 0 },
    dimensions := { width := 2.5, height := 0.8, depth := 1.5 },
    color := { r := 100, g := 100, b := 120 },
    confidenceScore := 0.95,
    description := "Comfortable modern L-shaped sofa perfect for HDB living rooms" },
  { id := "table-001", name := "Coffee Table", category := .table,
    position := { x := -1, y := 0.2, z := 2 },
    dimensions := { width := 1.2, height := 0.4, depth := 0.6 },
    color := { r := 139, g := 90, b := 60 },
    confidenceScore := 0.92,
    description := "Wooden coffee table with storage compartment" },
  { id := "table-002", name := "Dining Table", category := .table,
    position := { x := 3, y := 0.4, z := -2 },
    dimensions := { width := 1.6, height := 0.8, depth := 0.9 },
    color := { r := 160, g := 120, b := 80 },
    confidenceScore := 0.88,
    description := "4-seater dining table, space-saving design" },
  { id := "chair-001", name := "Dining Chair", category := .chair,
    position := { x := 2.5, y := 0.45, z := -1.5 },
    dimensions := { width := 0.5, height := 0.9, depth := 0.5 },
    color := { r := 80, g := 80, b := 80 },
    confidenceScore := 0.90,
    description := "Modern dining chair with ergonomic design" },
  { id := "chair-002", name := "Dining Chair", category := .chair,
    position := { x := 3.5, y := 0.45, z := -1.5 },
    dimensions := { width := 0.5, height := 0.9, depth := 0.5 },
    color := { r := 80, g := 80, b := 80 },
    confidenceScore := 0.90,
    description := "Modern dining chair with ergonomic design" },
  { id := "cabinet-001", name := "TV Console", category := .cabinet,
    position := { x := -4, y := 0.3, z := 3 },
    dimensions := { width := 2.0, height := 0.6, depth := 0.4 },
    color := { r := 70, g := 50, b := 40 },
    confidenceScore := 0.87,
    description := "Modern TV console with shelving" },
  { id := "shelf-001", name := "Wall Shelf Unit", category := .shelf,
    position := { x := 4, y := 1.0, z := 2 },
    dimensions := { width := 1.0, height := 2.0, depth := 0.3 },
    color := { r := 200, g := 200, b := 200 },
    confidenceScore := 0.85,
    description := "Vertical storage shelf unit" },
  { id := "lamp-001", name := "Floor Lamp", category := .lamp,
    position := { x := -3, y := 0.8, z := -2 },
    dimensions := { width := 0.3, height := 1.6, depth := 0.3 },
    color := { r := 220, g := 180, b := 100 },
    confidenceScore := 0.83,
    description := "Modern floor lamp with adjustable head" },
  { id := "sofa-002", name := "Accent Chair", category := .sofa,
    position := { x := 0, y := 0.4, z := -3 },
    dimensions := { width := 0.8, height := 0.9, depth := 0.8 },
    color := { r := 180, g := 140, b := 100 },
    confidenceScore := 0.81,
    description := "Stylish accent chair for additional seating" },
  { id := "table-003", name := "Side Table", category := .table,
    position := { x := 0.5, y := 0.3, z := -3.5 },
    dimensions := { width := 0.5, height := 0.6, depth := 0.5 },
    color := { r := 100, g := 70, b := 50 },
    confidenceScore := 0.79,
    description := "Compact side table for small spaces" }]

/-- `JAPANESE_FURNITURE_DATABASE` from `furnitureData.ts`: the
Japanese-themed catalog (10 records). -/
def JAPANESE_FURNITURE_DATABASE : List CatalogItem := [
  { id := "jp-table-001", name := "Chabudai Low Table", category := .table,
    position := { x := 0, y := 0.15, z := 0 },
    dimensions := { width := 1.2, height := 0.3, depth := 0.8 },
    color := { r := 139, g := 90, b := 60 },
    confidenceScore := 0.96,
    description := "Traditional Japanese low dining table" },
  { id := "jp-sofa-001", name := "Futon Seating", category := .sofa,
    position := { x := -2.5, y := 0.2, z := -2 },
    dimensions := { width := 1.8, height := 0.4, depth := 0.9 },
    color := { r := 120, g := 110, b := 100 },
    confidenceScore := 0.94,
    description := "Low-profile Japanese futon seating" },
  { id := "jp-cabinet-001", name := "Tansu Storage Cabinet", category := .cabinet,
    position := { x := -4, y := 0.4, z := 2 },
    dimensions := { width := 1.5, height := 0.8, depth := 0.4 },
    color := { r := 90, g := 60, b := 40 },
    confidenceScore := 0.92,
    description := "Traditional Japanese chest of drawers" },
  { id := "jp-lamp-001", name := "Andon Floor Lamp", category := .lamp,
    position := { x := -3.5, y := 0.6, z := -3 },
    dimensions := { width := 0.35, height := 1.2, depth := 0.35 },
    color := { r := 240, g := 230, b := 210 },
    confidenceScore := 0.90,
    description := "Traditional Japanese paper lantern lamp" },
  { id := "jp-shelf-001", name := "Shoji Screen Shelf", category := .shelf,
    position := { x := 4, y := 0.9, z := 0 },
    dimensions := { width := 1.2, height := 1.8, depth := 0.25 },
    color := { r := 230, g := 220, b := 200 },
    confidenceScore := 0.88,
    description := "Japanese-style display shelf with sliding doors" },
  { id := "jp-table-002", name := "Tea Ceremony Table", category := .table,
    position := { x := 2, y := 0.12, z := -2.5 },
    dimensions := { width := 0.8, height := 0.25, depth := 0.6 },
    color := { r := 110, g := 75, b := 50 },
    confidenceScore := 0.86,
    description := "Small low table for tea ceremonies" },
  { id := "jp-chair-001", name := "Zaisu Floor Chair", category := .chair,
    position := { x := 0.8, y := 0.15, z := 0.5 },
    dimensions := { width := 0.55, height := 0.3, depth := 0.55 },
    color := { r := 100, g := 90, b := 80 },
    confidenceScore := 0.85,
    description := "Japanese legless floor chair" },
  { id := "jp-chair-002", name := "Zaisu Floor Chair", category := .chair,
    position := { x := -0.8, y := 0.15, z := 0.5 },
    dimensions := { width := 0.55, height := 0.3, depth := 0.55 },
    color := { r := 100, g := 90, b := 80 },
    confidenceScore := 0.85,
    description := "Japanese legless floor chair" },
  { id := "jp-cabinet-002", name := "Kotatsu Table", category := .table,
    position := { x := 2.5, y := 0.2, z := 1.5 },
    dimensions := { width := 1.0, height := 0.4, depth := 1.0 },
    color := { r := 130, g := 85, b := 55 },
    confidenceScore := 0.83,
    description := "Heated table with blanket (winter essential)" },
  { id := "jp-other-001", name := "Bonsai Display Stand", category := .other,
    position := { x := 3.5, y := 0.35, z := -1 },
    dimensions := { width := 0.5, height := 0.7, depth := 0.4 },
    color := { r := 140, g := 100, b := 70 },
    confidenceScore := 0.80,
    description := "Decorative stand for bonsai or ikebana" }]

/-- JavaScript `String.prototype.toLowerCase`, embedded character-wise
(the keywords matched against it are all lower-case ASCII). -/
def toLowerCase (s : String) : String :=
  ⟨s.data.map Char.toLower⟩

/-- Substring occurrence on character lists: `containsChars pat cs` is
true when `pat` occurs contiguously inside `cs`. -/
def containsChars (pat : List Char) : List Char → Bool
  | [] => List.isPrefixOf pat []
  | c :: rest => List.isPrefixOf pat (c :: rest) || containsChars pat rest

/-- JavaScript `String.prototype.includes`: `strContains s pat` is true
when `pat` occurs as a contiguous substring of `s`. -/
def strContains (s pat : String) : Bool :=
  containsChars pat.data s.data

/-- The first guard of `detectRoomStyle` in `mockRAG.ts`:
`lowerQuery.includes('japanese') || ... || lowerQuery.includes('tatami')`. -/
def hasJapaneseKeyword (q : String) : Bool :=
  strContains (toLowerCase q) "japanese" || strContains (toLowerCase q) "japan" ||
    strContains (toLowerCase q) "zen" || strContains (toLowerCase q) "tatami"

/-- The second guard of `detectRoomStyle`. -/
def hasMinimalistKeyword (q : String) : Bool :=
  strContains (toLowerCase q) "minimalist" || strContains (toLowerCase q) "minimal"

/-- The third guard of `detectRoomStyle`. -/
def hasScandinavianKeyword (q : String) : Bool :=
  strContains (toLowerCase q) "scandinavian" || strContains (toLowerCase q) "nordic"

/-- The fourth guard of `detectRoomStyle`. -/
def hasIndustrialKeyword (q : String) : Bool :=
  strContains (toLowerCase q) "industrial"

/-- The fifth guard of `detectRoomStyle`. -/
def hasTraditionalKeyword (q : String) : Bool :=
  strContains (toLowerCase q) "traditional"

/-- `detectRoomStyle` from `mockRAG.ts`: keyword matching on the
lower-cased query, first matching guard wins, default `modern`. -/
def detectRoomStyle (query : String) : RoomStyle :=
  if hasJapaneseKeyword query then .japanese
  else if hasMinimalistKeyword query then .minimalist
  else if hasScandinavianKeyword query then .scandinavian
  else if hasIndustrialKeyword query then .industrial
  else if hasTraditionalKeyword query then .traditional
  else .modern

/-- `getFurnitureByStyle` from `mockRAG.ts`: the `japanese` case returns
the Japanese catalog; every other case (and the `default` arm) falls
through to the general catalog. -/
def getFurnitureByStyle (style : RoomStyle) : List CatalogItem :=
  match style with
  | .japanese => JAPANESE_FURNITURE_DATABASE
  | _ => MOCK_FURNITURE_DATABASE

/-- The ordering imposed by the comparator
`(a, b) => b.confidenceScore - a.confidenceScore`: `confGE a b` holds
when the comparator value is ≤ 0, i.e. `a` may be placed no later
than `b`. -/
def confGE (a b : Furniture) : Prop :=
  b.confidenceScore ≤ a.confidenceScore

instance : DecidableRel confGE :=
  fun a b => inferInstanceAs (Decidable (b.confidenceScore ≤ a.confidenceScore))

instance : IsTotal Furniture confGE :=
  ⟨fun a b => Or.symm (le_total a.confidenceScore b.confidenceScore)⟩

instance : IsTrans Furniture confGE :=
  ⟨fun _ _ _ h1 h2 => le_trans h2 h1⟩

/-- `.sort((a, b) => b.confidenceScore - a.confidenceScore)`: ECMA-262
requires `Array.prototype.sort` to be stable, so it is embedded as the
stable insertion sort over `confGE` (descending confidence, ties keeping
their input order). -/
def sortByConfidenceDesc (l : List Furniture) : List Furniture :=
  List.insertionSort confGE l

/-- `retrieveFurniture` from `mockRAG.ts` (the simulated network delay
and the `timestamp` are I/O effects outside the pure embedding): detect
the style, pick the catalog, `slice(0, maxResults)`, attach
`visible: true`, sort by descending confidence, echo the query. -/
def retrieveFurniture (query : String) (maxResults : ℕ) : RAGRetrievalResult :=
  { furniture :=
      sortByConfidenceDesc
        (((getFurnitureByStyle (detectRoomStyle query)).take maxResults).map withVisible),
    query := query }

/-- JavaScript `Array.prototype.join(sep)` on a list of strings. -/
def joinWith (sep : String) : List String → String
  | [] => ""
  | [s] => s
  | s :: rest => s ++ sep ++ joinWith sep rest

/-- `retrieveFurnitureByCategory` from `mockRAG.ts`: filter the default
catalog by case-sensitive membership of the category string in
`categories`, attach `visible: true`, sort by descending confidence; the
`query` field is the synthesized string built from the template literal. -/
def retrieveFurnitureByCategory (categories : List String) : RAGRetrievalResult :=
  { furniture :=
      sortByConfidenceDesc
        ((MOCK_FURNITURE_DATABASE.filter
            (fun item => categories.contains item.category.categoryName)).map withVisible),
    query := "Categories: " ++ joinWith ", " categories }

/-- JavaScript `Math.round`: round half toward positive infinity. -/
def jsRound (x : ℚ) : ℤ :=
  ⌊x + 1 / 2⌋

/-- `calculateRoomCoverage` from `mockRAG.ts`: filter to visible items,
sum `width * depth` (a `reduce` from 0), divide by the room area and
scale to a percentage, round the footprint to 2 decimals and the
percentage to 1 decimal. The unguarded division is `none` when the room
area is zero. -/
def calculateRoomCoverage (furniture : List Furniture) (roomWidth roomDepth : ℚ) :
    CoverageStats :=
  let visibleFurniture := furniture.filter (fun f => f.visible)
  let totalFootprint := visibleFurniture.foldl
    (fun sum item => sum + item.dimensions.width * item.dimensions.depth) 0
  let roomArea := roomWidth * roomDepth
  { totalFootprint := (jsRound (totalFootprint * 100) : ℚ) / 100,
    coveragePercentage :=
      if roomArea = 0 then none
      else some ((jsRound (totalFootprint / roomArea * 100 * 10) : ℚ) / 10),
    itemCount := visibleFurniture.length }

/-- Specification-side form of the footprint sum: the sum of
`width * depth` over exactly the visible items. -/
def visibleFootprintSum (furniture : List Furniture) : ℚ :=
  ((furniture.filter (fun f => f.visible)).map
    (fun f => f.dimensions.width * f.dimensions.depth)).sum

/-! ### Helper lemmas (shared across the claim theorems) -/

theorem jsRound_eq (x : ℚ) (z : ℤ) (h1 : (z : ℚ) ≤ x + 1 / 2) (h2 : x + 1 / 2 < z + 1) :
    jsRound x = z := by
  unfold jsRound
  rw [Int.floor_eq_iff]
  exact ⟨h1, h2⟩

theorem foldl_add_footprint (l : List Furniture) (a : ℚ) :
    l.foldl (fun sum item => sum + item.dimensions.width * item.dimensions.depth) a
      = a + (l.map (fun f => f.dimensions.width * f.dimensions.depth)).sum := by
  induction l generalizing a with
  | nil => simp
  | cons x xs ih => simp [ih, add_assoc]

theorem calculateRoomCoverage_footprint_eq (fs : List Furniture) (w d : ℚ) :
    (calculateRoomCoverage fs w d).totalFootprint
      = (jsRound (visibleFootprintSum fs * 100) : ℚ) / 100 := by
  simp [calculateRoomCoverage, visibleFootprintSum, foldl_add_footprint]

theorem calculateRoomCoverage_count_eq (fs : List Furniture) (w d : ℚ) :
    (calculateRoomCoverage fs w d).itemCount = (fs.filter (fun f => f.visible)).length :=
  rfl

theorem calculateRoomCoverage_pct_eq (fs : List Furniture) (w d : ℚ) (h : w * d ≠ 0) :
    (calculateRoomCoverage fs w d).coveragePercentage
      = some ((jsRound (visibleFootprintSum fs / (w * d) * 100 * 10) : ℚ) / 10) := by
  simp [calculateRoomCoverage, visibleFootprintSum, foldl_add_footprint, h]

theorem calculateRoomCoverage_pct_none_eq (fs : List Furniture) (w d : ℚ) (h : w * d = 0) :
    (calculateRoomCoverage fs w d).coveragePercentage = none := by
  simp [calculateRoomCoverage, h]

theorem sortByConfidenceDesc_perm (l : List Furniture) :
    (sortByConfidenceDesc l).Perm l :=
  List.perm_insertionSort confGE l

theorem sortByConfidenceDesc_sorted (l : List Furniture) :
    List.Sorted confGE (sortByConfidenceDesc l) :=
  List.sorted_insertionSort confGE l

theorem sortByConfidenceDesc_length (l : List Furniture) :
    (sortByConfidenceDesc l).length = l.length :=
  List.length_insertionSort confGE l

theorem sortByConfidenceDesc_pair_stable (a b : Furniture) (l : List Furniture)
    (hab : confGE a b) (h : List.Sublist [a, b] l) :
    List.Sublist [a, b] (sortByConfidenceDesc l) :=
  List.pair_sublist_insertionSort hab h

theorem sort_map_withVisible_all_visible (l : List CatalogItem) :
    (sortByConfidenceDesc (l.map withVisible)).all (fun f => f.visible) = true := by
  rw [List.all_eq_true]
  intro f hf
  have hmem : f ∈ l.map withVisible := ((sortByConfidenceDesc_perm _).mem_iff).mp hf
  rcases List.mem_map.mp hmem with ⟨i, _, rfl⟩
  rfl

/-! ### Claim theorems -/

/-- C2: `detectRoomStyle` is total and returns exactly one `RoomStyle`,
characterized by the priority-ordered keyword cascade: `japanese` iff a
japanese keyword occurs in the lower-cased query; `minimalist` iff no
japanese keyword but a minimalist keyword occurs; similarly for
`scandinavian`, `industrial`, `traditional`; and `modern` exactly when no
keyword occurs (in particular for the empty query). A query containing
both a japanese keyword and a minimalist keyword yields `japanese`
because that check runs first. -/
theorem detectRoomStyle_characterization :
    (∀ q : String,
      (detectRoomStyle q = RoomStyle.japanese ↔ hasJapaneseKeyword q = true) ∧
      (detectRoomStyle q = RoomStyle.minimalist ↔
        (hasJapaneseKeyword q = false ∧ hasMinimalistKeyword q = true)) ∧
      (detectRoomStyle q = RoomStyle.scandinavian ↔
        (hasJapaneseKeyword q = false ∧ hasMinimalistKeyword q = false ∧
          hasScandinavianKeyword q = true)) ∧
      (detectRoomStyle q = RoomStyle.industrial ↔
        (hasJapaneseKeyword q = false ∧ hasMinimalistKeyword q = false ∧
          hasScandinavianKeyword q = false ∧ hasIndustrialKeyword q = true)) ∧
      (detectRoomStyle q = RoomStyle.traditional ↔
        (hasJapaneseKeyword q = false ∧ hasMinimalistKeyword q = false ∧
          hasScandinavianKeyword q = false ∧ hasIndustrialKeyword q = false ∧
          hasTraditionalKeyword q = true)) ∧
      (detectRoomStyle q = RoomStyle.modern ↔
        (hasJapaneseKeyword q = false ∧ hasMinimalistKeyword q = false ∧
          hasScandinavianKeyword q = false ∧ hasIndustrialKeyword q = false ∧
          hasTraditionalKeyword q = false))) ∧
    (∀ q : String, hasJapaneseKeyword q = true → hasMinimalistKeyword q = true →
      detectRoomStyle q = RoomStyle.japanese) ∧
    detectRoomStyle "" = RoomStyle.modern := by
  refine ⟨fun q => ?_, fun q h1 _ => by simp [detectRoomStyle, h1], by decide⟩
  unfold detectRoomStyle
  cases h1 : hasJapaneseKeyword q <;> cases h2 : hasMinimalistKeyword q <;>
    cases h3 : hasScandinavianKeyword q <;> cases h4 : hasIndustrialKeyword q <;>
      cases h5 : hasTraditionalKeyword q <;> simp

/-- Witness for C2: the query "zen minimal room" contains both a japanese
keyword ("zen") and a minimalist keyword ("minimal") and resolves to
`japanese`. -/
theorem detectRoomStyle_characterization_witness :
    hasJapaneseKeyword "zen minimal room" = true ∧
    hasMinimalistKeyword "zen minimal room" = true ∧
    detectRoomStyle "zen minimal room" = RoomStyle.japanese :=
  ⟨by decide, by decide,
    detectRoomStyle_characterization.2.1 "zen minimal room" (by decide) (by decide)⟩

/-- C4: the catalog selector returns the Japanese-themed catalog for the
style `japanese` and the same default catalog for every other style. -/
theorem getFurnitureByStyle_spec :
    ∀ s : RoomStyle,
      getFurnitureByStyle s =
        if s = RoomStyle.japanese then JAPANESE_FURNITURE_DATABASE
        else MOCK_FURNITURE_DATABASE := by
  intro s
  cases s <;> rfl

/-- C9: the `query` field of `retrieveFurnitureByCategory` is the
synthesized description "Categories: " followed by the category names
joined with ", " — not an echo of a caller query. -/
theorem retrieveFurnitureByCategory_query_spec :
    (∀ cats : List String,
      (retrieveFurnitureByCategory cats).query = "Categories: " ++ joinWith ", " cats) ∧
    (retrieveFurnitureByCategory ["sofa", "table"]).query = "Categories: sofa, table" :=
  ⟨fun _ => rfl, by decide⟩

/-- C6: when no category in the list matches the category of any record
of the default catalog, `retrieveFurnitureByCategory` returns an empty
furniture sequence (and being a total function, it raises no error). -/
theorem retrieveFurnitureByCategory_unmatched_empty :
    ∀ cats : List String,
      MOCK_FURNITURE_DATABASE.all
          (fun item => !(cats.contains item.category.categoryName)) = true →
        (retrieveFurnitureByCategory cats).furniture = [] := by
  intro cats h
  have hfilter : MOCK_FURNITURE_DATABASE.filter
      (fun item => cats.contains item.category.categoryName) = [] := by
    rw [List.filter_eq_nil_iff]
    intro a ha
    have := List.all_eq_true.mp h a ha
    simpa using this
  have hdef : (retrieveFurnitureByCategory cats).furniture
      = sortByConfidenceDesc ((MOCK_FURNITURE_DATABASE.filter
          (fun item => cats.contains item.category.categoryName)).map withVisible) := rfl
  rw [hdef, hfilter]
  rfl

/-- Witness for C6: the unrecognized category name "nonexistent" matches
no record and yields an empty result. -/
theorem retrieveFurnitureByCategory_unmatched_empty_witness :
    MOCK_FURNITURE_DATABASE.all
        (fun item => !((["nonexistent"] : List String).contains item.category.categoryName))
      = true ∧
    (retrieveFurnitureByCategory ["nonexistent"]).furniture = [] :=
  ⟨by decide, retrieveFurnitureByCategory_unmatched_empty ["nonexistent"] (by decide)⟩

/-- C3: under positive room dimensions, `calculateRoomCoverage` reports
the visible-only footprint sum rounded to 2 decimal places, the
percentage (un-rounded sum / room area × 100) rounded to 1 decimal
place, and the count of visible items; hidden items contribute nothing,
so an all-hidden list yields footprint 0, percentage 0, count 0. -/
theorem calculateRoomCoverage_spec (fs : List Furniture) (w d : ℚ)
    (hw : 0 < w) (hd : 0 < d) :
    (calculateRoomCoverage fs w d).totalFootprint
        = (jsRound (visibleFootprintSum fs * 100) : ℚ) / 100 ∧
    (calculateRoomCoverage fs w d).coveragePercentage
        = some ((jsRound (visibleFootprintSum fs / (w * d) * 100 * 10) : ℚ) / 10) ∧
    (calculateRoomCoverage fs w d).itemCount = (fs.filter (fun f => f.visible)).length ∧
    (fs.all (fun f => !f.visible) = true →
      calculateRoomCoverage fs w d
        = { totalFootprint := 0, coveragePercentage := some 0, itemCount := 0 }) := by
  have harea : w * d ≠ 0 := ne_of_gt (mul_pos hw hd)
  refine ⟨calculateRoomCoverage_footprint_eq fs w d,
    calculateRoomCoverage_pct_eq fs w d harea,
    calculateRoomCoverage_count_eq fs w d, ?_⟩
  intro hall
  have hfil : fs.filter (fun f => f.visible) = [] := by
    rw [List.filter_eq_nil_iff]
    intro a ha
    have := List.all_eq_true.mp hall a ha
    simpa using this
  have hsum : visibleFootprintSum fs = 0 := by
    simp only [visibleFootprintSum]
    rw [hfil]
    rfl
  have hr0 : jsRound 0 = 0 := jsRound_eq 0 0 (by norm_num) (by norm_num)
  have heta : calculateRoomCoverage fs w d
      = ⟨(calculateRoomCoverage fs w d).totalFootprint,
          (calculateRoomCoverage fs w d).coveragePercentage,
          (calculateRoomCoverage fs w d).itemCount⟩ := rfl
  rw [heta, calculateRoomCoverage_footprint_eq fs w d,
    calculateRoomCoverage_pct_eq fs w d harea,
    calculateRoomCoverage_count_eq fs w d, hsum, hfil]
  norm_num [hr0]

/-- Witness for C3 at the empty furniture list in a 2 m × 3 m room. -/
theorem calculateRoomCoverage_spec_witness :
    (0 : ℚ) < 2 ∧ (0 : ℚ) < 3 ∧
    ((calculateRoomCoverage [] 2 3).totalFootprint
        = (jsRound (visibleFootprintSum [] * 100) : ℚ) / 100 ∧
      (calculateRoomCoverage [] 2 3).coveragePercentage
        = some ((jsRound (visibleFootprintSum [] / (2 * 3) * 100 * 10) : ℚ) / 10) ∧
      (calculateRoomCoverage [] 2 3).itemCount
        = (([] : List Furniture).filter (fun f => f.visible)).length ∧
      (([] : List Furniture).all (fun f => !f.visible) = true →
        calculateRoomCoverage [] 2 3
          = { totalFootprint := 0, coveragePercentage := some 0, itemCount := 0 })) :=
  ⟨by norm_num, by norm_num, calculateRoomCoverage_spec [] 2 3 (by norm_num) (by norm_num)⟩

/-- C8: the division by roomWidth × roomDepth is unguarded: under the
precondition 0 < roomWidth and 0 < roomDepth the division-by-zero case
is unreachable and a percentage is always produced, while when
roomWidth = 0 or roomDepth = 0 the source performs no guard and the
percentage is undefined (`none`, the division-by-zero case of the
embedding). -/
theorem calculateRoomCoverage_division_unguarded :
    (∀ (fs : List Furniture) (w d : ℚ), 0 < w → 0 < d →
      ∃ p : ℚ, (calculateRoomCoverage fs w d).coveragePercentage = some p) ∧
    (∀ (fs : List Furniture) (w d : ℚ), w = 0 ∨ d = 0 →
      (calculateRoomCoverage fs w d).coveragePercentage = none) := by
  constructor
  · intro fs w d hw hd
    exact ⟨_, calculateRoomCoverage_pct_eq fs w d (ne_of_gt (mul_pos hw hd))⟩
  · intro fs w d h
    apply calculateRoomCoverage_pct_none_eq
    rcases h with h | h <;> simp [h]

/-- Witness for C8: a 2 m × 3 m room yields a defined percentage; a room
with zero width yields the undefined (division-by-zero) case. -/
theorem calculateRoomCoverage_division_unguarded_witness :
    ((0 : ℚ) < 2 ∧ (0 : ℚ) < 3 ∧
      ∃ p : ℚ, (calculateRoomCoverage [] 2 3).coveragePercentage = some p) ∧
    (((0 : ℚ) = 0 ∨ (3 : ℚ) = 0) ∧
      (calculateRoomCoverage [] 0 3).coveragePercentage = none) :=
  ⟨⟨by norm_num, by norm_num,
      calculateRoomCoverage_division_unguarded.1 [] 2 3 (by norm_num) (by norm_num)⟩,
    ⟨Or.inl rfl, calculateRoomCoverage_division_unguarded.2 [] 0 3 (Or.inl rfl)⟩⟩

/-- Concrete input for the rounding-order claim: one visible item of
footprint 0.105 m². -/
def roundingProbeItem : Furniture :=
  { id := "probe-001", name := "Probe", category := .other,
    position := { x := 0, y := 0, z := 0 },
    dimensions := { width := 21 / 200, height := 1, depth := 1 },
    color := { r := 0, g := 0, b := 0 },
    confidenceScore := 1,
    description := "",
    visible := true }

/-- C10: `coveragePercentage` is computed from the un-rounded footprint
sum; for the probe input (footprint 0.105 in a 1 m × 1 m room) it is
10.5%, while recomputing the percentage from the reported rounded
footprint (0.11) would give 11% — a different value. -/
theorem coveragePercentage_from_unrounded_sum :
    (∀ (fs : List Furniture) (w d : ℚ), w * d ≠ 0 →
      (calculateRoomCoverage fs w d).coveragePercentage
        = some ((jsRound (visibleFootprintSum fs / (w * d) * 100 * 10) : ℚ) / 10)) ∧
    (calculateRoomCoverage [roundingProbeItem] 1 1).coveragePercentage = some (21 / 2) ∧
    (jsRound ((calculateRoomCoverage [roundingProbeItem] 1 1).totalFootprint
        / (1 * 1) * 100 * 10) : ℚ) / 10 = 11 ∧
    (21 / 2 : ℚ) ≠ 11 := by
  have hsum : visibleFootprintSum [roundingProbeItem] = 21 / 200 := by
    simp [visibleFootprintSum, roundingProbeItem, List.filter]
  have harg1 : (21 : ℚ) / 200 / (1 * 1) * 100 * 10 = 105 := by norm_num
  have hr105 : jsRound 105 = 105 := jsRound_eq 105 105 (by norm_num) (by norm_num)
  have hr105' : jsRound (21 / 2) = 11 := jsRound_eq (21 / 2) 11 (by norm_num) (by norm_num)
  have hr110 : jsRound 110 = 110 := jsRound_eq 110 110 (by norm_num) (by norm_num)
  refine ⟨fun fs w d h => calculateRoomCoverage_pct_eq fs w d h, ?_, ?_, by norm_num⟩
  · rw [calculateRoomCoverage_pct_eq _ _ _ (by norm_num), hsum, harg1, hr105]
    norm_num
  · rw [calculateRoomCoverage_footprint_eq, hsum]
    have harg2 : (21 : ℚ) / 200 * 100 = 21 / 2 := by norm_num
    rw [harg2, hr105']
    have harg3 : ((11 : ℤ) : ℚ) / 100 / (1 * 1) * 100 * 10 = 110 := by norm_num
    rw [harg3, hr110]
    norm_num

/-- Witness for C10 at the empty furniture list in a 1 m × 1 m room. -/
theorem coveragePercentage_from_unrounded_sum_witness :
    ((1 : ℚ) * 1 ≠ 0) ∧
    (calculateRoomCoverage [] 1 1).coveragePercentage
      = some ((jsRound (visibleFootprintSum [] / (1 * 1) * 100 * 10) : ℚ) / 10) :=
  ⟨by norm_num, coveragePercentage_from_unrounded_sum.1 [] 1 1 (by norm_num)⟩

/-- C1: for every query and maxResults, the furniture returned by
`retrieveFurniture` is the first maxResults records of the selected
catalog in catalog order (a prefix, NOT the globally top items), each
with `visible = true`, stably sorted by descending confidence: it equals
the stable sort of the materialized prefix, is a permutation of that
prefix, is sorted by non-increasing confidence, preserves the relative
order of any in-order pair (ties keep catalog-prefix order), and has
length min maxResults (catalog size) — so exactly maxResults items
whenever maxResults ≤ catalog size. -/
theorem retrieveFurniture_spec :
    ∀ (q : String) (n : ℕ),
      (retrieveFurniture q n).furniture
          = sortByConfidenceDesc
              (((getFurnitureByStyle (detectRoomStyle q)).take n).map withVisible) ∧
      ((retrieveFurniture q n).furniture).Perm
          (((getFurnitureByStyle (detectRoomStyle q)).take n).map withVisible) ∧
      List.Sorted confGE (retrieveFurniture q n).furniture ∧
      (∀ a b : Furniture, confGE a b →
        List.Sublist [a, b]
            (((getFurnitureByStyle (detectRoomStyle q)).take n).map withVisible) →
        List.Sublist [a, b] (retrieveFurniture q n).furniture) ∧
      ((retrieveFurniture q n).furniture).length
          = min n (getFurnitureByStyle (detectRoomStyle q)).length ∧
      ((retrieveFurniture q n).furniture).all (fun f => f.visible) = true := by
  intro q n
  refine ⟨rfl, sortByConfidenceDesc_perm _, sortByConfidenceDesc_sorted _,
    fun a b hab hsub => sortByConfidenceDesc_pair_stable a b _ hab hsub, ?_,
    sort_map_withVisible_all_visible _⟩
  show (sortByConfidenceDesc _).length = _
  rw [sortByConfidenceDesc_length, List.length_map, List.length_take]

/-- Witness for C1 at the query "nordic flat" with maxResults 3. -/
theorem retrieveFurniture_spec_witness :
    (retrieveFurniture "nordic flat" 3).furniture
        = sortByConfidenceDesc
            (((getFurnitureByStyle (detectRoomStyle "nordic flat")).take 3).map withVisible) ∧
    ((retrieveFurniture "nordic flat" 3).furniture).Perm
        (((getFurnitureByStyle (detectRoomStyle "nordic flat")).take 3).map withVisible) ∧
    List.Sorted confGE (retrieveFurniture "nordic flat" 3).furniture ∧
    (∀ a b : Furniture, confGE a b →
      List.Sublist [a, b]
          (((getFurnitureByStyle (detectRoomStyle "nordic flat")).take 3).map withVisible) →
      List.Sublist [a, b] (retrieveFurniture "nordic flat" 3).furniture) ∧
    ((retrieveFurniture "nordic flat" 3).furniture).length
        = min 3 (getFurnitureByStyle (detectRoomStyle "nordic flat")).length ∧
    ((retrieveFurniture "nordic flat" 3).furniture).all (fun f => f.visible) = true :=
  retrieveFurniture_spec "nordic flat" 3

/-- C5: `retrieveFurnitureByCategory` ignores the style detector and
returns exactly the default-catalog records whose category string is a
(case-sensitive) member of the given list, each with `visible = true`,
sorted by descending confidence, with no truncation: it equals the
stable sort of the materialized filtered catalog, is a permutation of
it, is sorted by non-increasing confidence, and its length equals the
number of matching records. -/
theorem retrieveFurnitureByCategory_spec :
    ∀ cats : List String,
      (retrieveFurnitureByCategory cats).furniture
          = sortByConfidenceDesc
              ((MOCK_FURNITURE_DATABASE.filter
                  (fun item => cats.contains item.category.categoryName)).map withVisible) ∧
      ((retrieveFurnitureByCategory cats).furniture).Perm
          ((MOCK_FURNITURE_DATABASE.filter
              (fun item => cats.contains item.category.categoryName)).map withVisible) ∧
      List.Sorted confGE (retrieveFurnitureByCategory cats).furniture ∧
      ((retrieveFurnitureByCategory cats).furniture).length
          = (MOCK_FURNITURE_DATABASE.filter
              (fun item => cats.contains item.category.categoryName)).length ∧
      ((retrieveFurnitureByCategory cats).furniture).all (fun f => f.visible) = true := by
  intro cats
  refine ⟨rfl, sortByConfidenceDesc_perm _, sortByConfidenceDesc_sorted _, ?_,
    sort_map_withVisible_all_visible _⟩
  show (sortByConfidenceDesc _).length = _
  rw [sortByConfidenceDesc_length, List.length_map]

/-- Witness for C5 at the category list ["table"]. -/
theorem retrieveFurnitureByCategory_spec_witness :
    (retrieveFurnitureByCategory ["table"]).furniture
        = sortByConfidenceDesc
            ((MOCK_FURNITURE_DATABASE.filter
                (fun item => (["table"] : List String).contains item.category.categoryName)).map
              withVisible) ∧
    ((retrieveFurnitureByCategory ["table"]).furniture).Perm
        ((MOCK_FURNITURE_DATABASE.filter
            (fun item => (["table"] : List String).contains item.category.categoryName)).map
          withVisible) ∧
    List.Sorted confGE (retrieveFurnitureByCategory ["table"]).furniture ∧
    ((retrieveFurnitureByCategory ["table"]).furniture).length
        = (MOCK_FURNITURE_DATABASE.filter
            (fun item => (["table"] : List String).contains item.category.categoryName)).length ∧
    ((retrieveFurnitureByCategory ["table"]).furniture).all (fun f => f.visible) = true :=
  retrieveFurnitureByCategory_spec ["table"]

/-- C7: for the query "Generate a Japanese style living room" with
maxResults 10, the detected style is `japanese`, the Japanese catalog
has exactly 10 records, the result has exactly 10 items, and its first
item is the "Chabudai Low Table" record with confidence 0.96. -/
theorem retrieveFurniture_japanese_scenario :
    detectRoomStyle "Generate a Japanese style living room" = RoomStyle.japanese ∧
    JAPANESE_FURNITURE_DATABASE.length = 10 ∧
    (retrieveFurniture "Generate a Japanese style living room" 10).furniture.length = 10 ∧
    ((retrieveFurniture "Generate a Japanese style living room" 10).furniture.head?).map
        (fun f => (f.name, f.confidenceScore))
      = some ("Chabudai Low Table", (0.96 : ℚ)) := by
  have hstyle : detectRoomStyle "Generate a Japanese style living room" = RoomStyle.japanese := by
    decide
  have hsorted : List.Sorted confGE (JAPANESE_FURNITURE_DATABASE.map withVisible) := by
    norm_num [JAPANESE_FURNITURE_DATABASE, withVisible, confGE, List.sorted_cons]
  have hfurn : (retrieveFurniture "Generate a Japanese style living room" 10).furniture
      = JAPANESE_FURNITURE_DATABASE.map withVisible := by
    have h0 : (retrieveFurniture "Generate a Japanese style living room" 10).furniture
        = sortByConfidenceDesc
            (((getFurnitureByStyle
                (detectRoomStyle "Generate a Japanese style living room")).take 10).map
              withVisible) := rfl
    rw [h0, hstyle]
    have h1 : ((getFurnitureByStyle RoomStyle.japanese).take 10).map withVisible
        = JAPANESE_FURNITURE_DATABASE.map withVisible := rfl
    rw [h1]
    exact hsorted.insertionSort_eq
  refine ⟨hstyle, rfl, ?_, ?_⟩
  · rw [hfurn]
    rfl
  · rw [hfurn]
    rfl
